import Mathlib

/-!
Shallow embedding of the hybrid local/remote storage and synchronization
engine of the Firm-ai backend (src-tauri/src: db.rs, sync.rs, flashcards.rs,
validation.rs, error.rs), together with theorems settling the specification
claims about it.

Conventions of the embedding:
- SQLite state is modelled explicitly: a row is an association list from
  column names to JSON-like values (`Row`), a table is a list of rows in
  rowid (insertion) order, and `LocalDB` carries the domain tables plus the
  `sync_queue` table.
- Remote (Supabase/postgrest) requests are modelled by an oracle
  `SyncEnv.net : RemoteCall → Bool` giving the success or failure of each
  executed request; `SyncEnv.cfg` says whether a remote client is configured
  (`HybridStorage.supabase` is `Some`).
- Effectful inputs of the code (generated UUIDs, current timestamps) are
  passed as explicit arguments.
- Fallible Rust functions returning `AppResult<T>` become functions into
  `Except AppError T`; stateful methods additionally return the updated
  state.
- Floating-point SQLite values (REAL columns) are outside the model; no
  claim concerns them.
-/

namespace FirmAI

/-- JSON-like value as produced by the row projection in
`SyncManager::sync_dirty_table` (strings, integers, booleans, null;
floating-point numbers are outside the model). -/
inductive JsonVal where
  | str (s : String)
  | num (n : Int)
  | boolean (b : Bool)
  | null
deriving Repr, DecidableEq

/-- A database row: column name to value, in column order.  Column names are
unique in any row produced by the schema of db.rs. -/
abbrev Row := List (String × JsonVal)

/-- Read a column of a row (`row.get` by column name). -/
def getCol (r : Row) (k : String) : Option JsonVal :=
  (r.find? (fun kv => kv.1 == k)).map (fun kv => kv.2)

/-- Overwrite an existing column of a row, as SQL
`UPDATE ... SET k = v` does; a column absent from the row is untouched
(the schema guarantees presence for the columns the code updates). -/
def setCol (r : Row) (k : String) (v : JsonVal) : Row :=
  r.map (fun kv => if kv.1 == k then (k, v) else kv)

/-- One row of the `sync_queue` table (struct `QueuedOperation` in sync.rs,
plus the `created_at` column used for ordering, modelled as a Nat tick). -/
structure QueueEntry where
  id : Int
  operation_type : String
  table_name : String
  record_id : String
  data : String
  attempts : Int
  created_at : Nat
deriving Repr, DecidableEq

/-- The SQLite database: the domain tables (an association list from table
name to its rows, in rowid order) and the `sync_queue` table. -/
structure LocalDB where
  tables : List (String × List Row)
  syncQueue : List QueueEntry
deriving Repr, DecidableEq

/-- The rows of a table (schema initialization guarantees the fixed tables
exist; a table absent from the list is empty). -/
def getTable (db : LocalDB) (t : String) : List Row :=
  match db.tables.find? (fun p => p.1 == t) with
  | some p => p.2
  | none => []

/-- Append a row to a table (SQL INSERT). -/
def insertRow (db : LocalDB) (t : String) (r : Row) : LocalDB :=
  if (db.tables.find? (fun p => p.1 == t)).isSome then
    { db with tables := db.tables.map (fun p => if p.1 == t then (p.1, p.2 ++ [r]) else p) }
  else
    { db with tables := db.tables ++ [(t, [r])] }

/-- The error variants of error.rs reachable in the modelled code paths. -/
inductive AppError where
  | Database (msg : String)
  | Supabase (msg : String)
  | Validation (msg : String)
  | Sync (msg : String)
  | Offline
  | Internal (msg : String)
deriving Repr, DecidableEq

/-- A remote request as executed against the postgrest client
(the `.execute()` point of a built query). -/
inductive RemoteCall where
  | insertCall (table : String) (data : String)
  | updateCall (table : String) (data : String) (id : String)
  | deleteCall (table : String) (id : String)
deriving Repr, DecidableEq

/-- A built but not yet executed postgrest query
(`postgrest::Builder` as returned by `SupabaseClient::select`). -/
structure Builder where
  table : String
  query : String
deriving Repr, DecidableEq

/-- Environment of a run: whether a Supabase client is configured
(`HybridStorage.supabase.is_some()`), and the outcome of each remote
request that is actually executed. -/
structure SyncEnv where
  cfg : Bool
  net : RemoteCall → Bool

/-! ### JSON serialization (serde_json with its BTreeMap object keys) -/

/-- Escape a string for JSON output (quotes and backslashes). -/
def jsonEscape (s : String) : String :=
  (s.replace "\\" "\\\\").replace "\"" "\\\""

/-- Print one JSON value. -/
def printJsonVal : JsonVal → String
  | .str s => "\"" ++ jsonEscape s ++ "\""
  | .num n => toString n
  | .boolean b => if b then "true" else "false"
  | .null => "null"

/-- Insert a column into a key-sorted row (serde_json objects are BTreeMaps,
so keys serialize in sorted order). -/
def insertByKey (kv : String × JsonVal) : Row → Row
  | [] => [kv]
  | x :: xs => if kv.1 < x.1 then kv :: x :: xs else x :: insertByKey kv xs

/-- Sort a row by column name, mirroring BTreeMap key order. -/
def sortRowByKey (r : Row) : Row :=
  r.foldr insertByKey []

/-- Concatenate with commas. -/
def joinComma : List String → String
  | [] => ""
  | [s] => s
  | s :: rest => s ++ "," ++ joinComma rest

/-- Serialize a row as a JSON object string (`serde_json::to_string` on the
corresponding `Map`). -/
def serializeRow (r : Row) : String :=
  "\x7b" ++ joinComma ((sortRowByKey r).map
    (fun kv => "\"" ++ jsonEscape kv.1 ++ "\":" ++ printJsonVal kv.2)) ++ "\x7d"

/-! ### validation.rs -/

/-- Rust `str::trim`: strip leading and trailing whitespace (character
list form, so that it evaluates inside the kernel). -/
def trimChars (l : List Char) : List Char :=
  ((l.dropWhile Char.isWhitespace).reverse.dropWhile Char.isWhitespace).reverse

/-- Rust `str::len`: the UTF-8 byte length of a string. -/
def strByteLen (s : String) : Nat :=
  (s.toList.map Char.utf8Size).sum

/-- Split a character list at every dash, the grouping performed by the
UUID regex of `validate_uuid`. -/
def splitDash : List Char → List (List Char)
  | [] => [[]]
  | c :: rest =>
    if c = '-' then [] :: splitDash rest
    else
      match splitDash rest with
      | [] => [[c]]
      | g :: gs => (c :: g) :: gs

/-- Lowercase hexadecimal digit, the character class of the UUID regex in
`validate_uuid`. -/
def isHexLower (c : Char) : Bool :=
  c.isDigit || ('a' ≤ c && c ≤ 'f')

/-- Whether a string matches the UUID regex of `validate_uuid`
(8-4-4-4-12 groups of lowercase hex digits). -/
def uuidShape (s : String) : Bool :=
  match splitDash s.toList with
  | [a, b, c, d, e] =>
    a.length == 8 && b.length == 4 && c.length == 4 && d.length == 4 &&
      e.length == 12 && (a ++ b ++ c ++ d ++ e).all isHexLower
  | _ => false

/-- `validate_uuid` from validation.rs. -/
def validateUuid (value fieldName : String) : Except AppError Unit :=
  if uuidShape value then .ok ()
  else .error (.Validation (fieldName ++ " must be a valid UUID"))

/-- `validate_not_empty` from validation.rs
(`value.trim().is_empty()`). -/
def validateNotEmpty (value fieldName : String) : Except AppError Unit :=
  if (trimChars value.toList).isEmpty then
    .error (.Validation (fieldName ++ " cannot be empty"))
  else .ok ()

/-- `validate_length` from validation.rs (`value.len()` counts UTF-8 bytes). -/
def validateLength (value fieldName : String) (lo hi : Nat) : Except AppError Unit :=
  let len := strByteLen value
  if len < lo || len > hi then
    .error (.Validation (fieldName ++ " must be between " ++ toString lo ++ " and "
      ++ toString hi ++ " characters (got " ++ toString len ++ ")"))
  else .ok ()

/-- Characters allowed through `sanitize_text` (alphanumeric approximated
by the ASCII class; no claim depends on non-ASCII input). -/
def sanitizeAllowed (c : Char) : Bool :=
  c.isAlphanum || c.isWhitespace ||
    ".,;:!?-_()[]\x7b\x7d'\"/\\@#%&".toList.contains c

/-- `sanitize_text` from validation.rs. -/
def sanitizeText (input : String) : String :=
  String.mk (input.toList.filter sanitizeAllowed)

/-- `validate_flashcard_content` from validation.rs. -/
def validateFlashcardContent (content fieldName : String) : Except AppError String :=
  match validateNotEmpty content fieldName with
  | .error e => .error e
  | .ok _ =>
    match validateLength content fieldName 1 5000 with
    | .error e => .error e
    | .ok _ => .ok (sanitizeText content)

/-! ### db.rs: SupabaseClient and HybridStorage connectivity -/

/-- `SupabaseClient::select`: builds a `from(table).select("*")` query and
returns it wrapped in `Ok`; no request is executed at this point, so the
result is unconditionally `Ok`. -/
def supabaseSelect (table : String) : Except AppError Builder :=
  .ok { table := table, query := "*" }

/-- `HybridStorage::check_online`: when a Supabase client is configured,
match on `supabase.select("profiles")`; otherwise false.  The built query is
never executed, so the network oracle is not consulted. -/
def checkOnline (env : SyncEnv) : Bool :=
  if env.cfg then
    match supabaseSelect "profiles" with
    | .ok _ => true
    | .error _ => false
  else false

/-! ### sync.rs: SyncManager -/

/-- In-memory and persisted state visible to the sync manager: the SQLite
database, the cached online flag of `HybridStorage`, and the
`is_syncing` / `last_sync` fields of `SyncManager` (the timestamp is a
Nat tick). -/
structure SyncState where
  db : LocalDB
  online : Bool
  isSyncing : Bool
  lastSync : Option Nat
deriving Repr, DecidableEq

/-- `SyncStatus` from sync.rs. -/
structure SyncStatus where
  is_syncing : Bool
  last_sync : Option Nat
  pending_operations : Nat
  is_online : Bool
deriving Repr, DecidableEq

/-- Insert a queue entry into a list sorted by `created_at`
(stable: later entries go after earlier ones with the same timestamp). -/
def insertByCreatedAt (e : QueueEntry) : List QueueEntry → List QueueEntry
  | [] => [e]
  | x :: xs => if x.created_at < e.created_at then x :: insertByCreatedAt e xs
               else e :: x :: xs

/-- Sort queue entries by `created_at` ascending (the ORDER BY of
`get_queued_operations`). -/
def sortByCreatedAt (l : List QueueEntry) : List QueueEntry :=
  l.foldr insertByCreatedAt []

/-- `SyncManager::get_queued_operations`: the `sync_queue` rows with
`attempts < 5`, ordered by `created_at` ascending, limited to 50. -/
def getQueuedOperations (db : LocalDB) : List QueueEntry :=
  (sortByCreatedAt (db.syncQueue.filter (fun e => e.attempts < 5))).take 50

/-- `SyncManager::remove_from_queue`: DELETE FROM sync_queue WHERE id = ?1. -/
def removeFromQueue (db : LocalDB) (operationId : Int) : LocalDB :=
  { db with syncQueue := db.syncQueue.filter (fun e => !(e.id == operationId)) }

/-- `SyncManager::increment_sync_attempts`:
UPDATE sync_queue SET attempts = attempts + 1 WHERE id = ?1. -/
def incrementSyncAttempts (db : LocalDB) (operationId : Int) : LocalDB :=
  { db with syncQueue := (db.syncQueue.map
      (fun e => if e.id == operationId then { e with attempts := e.attempts + 1 } else e)) }

/-- `SyncManager::execute_sync_operation`.  Returns the result together with
the trace of remote requests actually executed.  When no Supabase client is
configured the guard at the top fails with an Internal error; an operation
type other than insert/update/delete hits the catch-all arm and fails with a
Sync error before any remote request. -/
def executeSyncOperation (env : SyncEnv) (op : QueueEntry) :
    Except AppError Unit × List RemoteCall :=
  if env.cfg then
    match op.operation_type with
    | "insert" =>
      let c := RemoteCall.insertCall op.table_name op.data
      (if env.net c then .ok () else .error (.Sync "Insert failed"), [c])
    | "update" =>
      let c := RemoteCall.updateCall op.table_name op.data op.record_id
      (if env.net c then .ok () else .error (.Sync "Update failed"), [c])
    | "delete" =>
      let c := RemoteCall.deleteCall op.table_name op.record_id
      (if env.net c then .ok () else .error (.Sync "Delete failed"), [c])
    | _ =>
      (.error (.Sync ("Unknown operation type: " ++ op.operation_type)), [])
  else
    (.error (.Internal "Supabase not configured"), [])

/-- One iteration of the loop in `SyncManager::process_sync_queue`: on
success remove the entry from the queue, on any error increment its attempt
counter. -/
def processQueueEntry (env : SyncEnv) (db : LocalDB) (op : QueueEntry) : LocalDB :=
  match (executeSyncOperation env op).1 with
  | .ok _ => removeFromQueue db op.id
  | .error _ => incrementSyncAttempts db op.id

/-- `SyncManager::process_sync_queue`: fetch the batch once, then process
each entry in order; per-entry failures are caught inside the loop, so the
function itself always returns Ok. -/
def processSyncQueue (env : SyncEnv) (db : LocalDB) : LocalDB × Except AppError Unit :=
  ((getQueuedOperations db).foldl (processQueueEntry env) db, .ok ())

/-- Whether a row is selected by `WHERE dirty = 1`. -/
def isDirtyRow (r : Row) : Bool :=
  getCol r "dirty" == some (.num 1)

/-- The row projection inside the `query_map` of
`SyncManager::sync_dirty_table`: every column is carried over except the
internal `synced` and `dirty` columns, which are skipped. -/
def projectRow (r : Row) : Row :=
  r.filter (fun kv => !(kv.1 == "synced" || kv.1 == "dirty"))

/-- The fetch of `sync_dirty_table`: SELECT * WHERE dirty = 1 LIMIT 20, each
row projected to its remote payload during the row mapping. -/
def dirtyRecords (db : LocalDB) (tableName : String) : List Row :=
  (((getTable db tableName).filter isDirtyRow).take 20).map projectRow

/-- `record["id"].as_str().unwrap_or("")` on a projected record. -/
def recordIdOf (r : Row) : String :=
  match getCol r "id" with
  | some (.str s) => s
  | _ => ""

/-- UPDATE t SET synced = 1, dirty = 0 WHERE id = ?1, applied to one row. -/
def markRowSynced (rid : String) (r : Row) : Row :=
  if getCol r "id" == some (.str rid) then
    setCol (setCol r "synced" (.num 1)) "dirty" (.num 0)
  else r

/-- The mark-as-synced update of `sync_dirty_table` on the whole database. -/
def markSynced (db : LocalDB) (tableName rid : String) : LocalDB :=
  { db with tables := (db.tables.map
      (fun p => if p.1 == tableName then (p.1, p.2.map (markRowSynced rid)) else p)) }

/-- The upload loop of `sync_dirty_table`: upsert each fetched record; on
success mark the row synced locally and continue; on failure the error
propagates immediately (the `?` after `map_err`), leaving the database as it
was at that point. -/
def upsertRecords (env : SyncEnv) (tableName : String) :
    LocalDB → List Row → LocalDB × Except AppError Unit
  | db, [] => (db, .ok ())
  | db, record :: rest =>
    let rid := recordIdOf record
    let data := serializeRow record
    if env.net (.insertCall tableName data) then
      upsertRecords env tableName (markSynced db tableName rid) rest
    else
      (db, .error (.Sync "Upsert failed"))

/-- `SyncManager::sync_dirty_table`. -/
def syncDirtyTable (env : SyncEnv) (db : LocalDB) (tableName : String) :
    LocalDB × Except AppError Unit :=
  if env.cfg then
    upsertRecords env tableName db (dirtyRecords db tableName)
  else
    (db, .error (.Internal "Supabase not configured"))

/-- The fixed table list of `SyncManager::sync_dirty_records`. -/
def syncTableNames : List String :=
  ["cases", "flashcard_sets", "flashcards", "mock_tests", "test_results", "study_plans"]

/-- The loop of `sync_dirty_records`: tables in order, aborting on the first
error (the `?` on each `sync_dirty_table` call). -/
def syncTablesList (env : SyncEnv) :
    LocalDB → List String → LocalDB × Except AppError Unit
  | db, [] => (db, .ok ())
  | db, t :: ts =>
    match syncDirtyTable env db t with
    | (db1, .ok _) => syncTablesList env db1 ts
    | (db1, .error e) => (db1, .error e)

/-- `SyncManager::sync_dirty_records`. -/
def syncDirtyRecords (env : SyncEnv) (db : LocalDB) : LocalDB × Except AppError Unit :=
  syncTablesList env db syncTableNames

/-- `SyncManager::perform_sync`: offline short-circuit, then queue drain,
then dirty sweep, each `?`-propagated. -/
def performSync (env : SyncEnv) (s : SyncState) : SyncState × Except AppError Unit :=
  if s.online then
    match processSyncQueue env s.db with
    | (db1, .error e) => ({ s with db := db1 }, .error e)
    | (db1, .ok _) =>
      match syncDirtyRecords env db1 with
      | (db2, r2) => ({ s with db := db2 }, r2)
  else
    (s, .error .Offline)

/-- `SyncManager::sync_now`: fail fast when a cycle is already running,
otherwise set the flag, run `perform_sync`, clear the flag, and advance
`last_sync` to the current time only when the cycle returned Ok. -/
def syncNow (env : SyncEnv) (now : Nat) (s : SyncState) :
    SyncState × Except AppError Unit :=
  if s.isSyncing then
    (s, .error (.Sync "Sync already in progress"))
  else
    let r := performSync env { s with isSyncing := true }
    let ls := if r.2.isOk then some now else r.1.lastSync
    ({ r.1 with isSyncing := false, lastSync := ls }, r.2)

/-- `SyncManager::get_status`: `pending_operations` is
SELECT COUNT(*) FROM sync_queue WHERE attempts < 5. -/
def getStatus (s : SyncState) : SyncStatus :=
  { is_syncing := s.isSyncing
    last_sync := s.lastSync
    pending_operations := (s.db.syncQueue.filter (fun e => e.attempts < 5)).length
    is_online := s.online }

/-- `SyncManager::queue_operation`: append an entry with `attempts = 0`;
the auto-increment id and the `datetime('now')` timestamp are passed in. -/
def queueOperation (db : LocalDB) (opType tableName recordId data : String)
    (newId : Int) (now : Nat) : LocalDB :=
  { db with syncQueue := db.syncQueue ++
      [{ id := newId, operation_type := opType, table_name := tableName,
         record_id := recordId, data := data, attempts := 0, created_at := now }] }

/-! ### flashcards.rs: FlashcardService -/

/-- `FlashcardSet` from flashcards.rs; `id` and the timestamps are produced
by Uuid/Utc effects and therefore appear as data here. -/
structure FlashcardSet where
  id : String
  user_id : String
  title : String
  description : Option String
  created_at : String
  updated_at : String
deriving Repr, DecidableEq

/-- `Flashcard` from flashcards.rs. -/
structure Flashcard where
  id : String
  set_id : String
  front : String
  back : String
  created_at : String
deriving Repr, DecidableEq

/-- `CreateFlashcardRequest` from flashcards.rs. -/
structure CreateFlashcardRequest where
  set_id : String
  front : String
  back : String
deriving Repr, DecidableEq

/-- Option String to JSON, as `serde_json::json!` renders it. -/
def optStrToJson : Option String → JsonVal
  | some s => .str s
  | none => .null

/-- The remote payload built in `create_set`. -/
def flashcardSetPayload (set : FlashcardSet) : Row :=
  [("id", .str set.id), ("user_id", .str set.user_id), ("title", .str set.title),
   ("description", optStrToJson set.description),
   ("created_at", .str set.created_at), ("updated_at", .str set.updated_at)]

/-- The local row inserted by `create_set`: the payload columns plus
`synced = online ? 1 : 0` and `dirty = online ? 0 : 1`. -/
def flashcardSetRow (online : Bool) (set : FlashcardSet) : Row :=
  flashcardSetPayload set ++
    [("synced", .num (if online then 1 else 0)),
     ("dirty", .num (if online then 0 else 1))]

/-- The remote request issued by `create_set` when online. -/
def createSetRemoteCall (set : FlashcardSet) : RemoteCall :=
  .insertCall "flashcard_sets" (serializeRow (flashcardSetPayload set))

/-- `FlashcardService::create_set`: validate, then, when the cached online
flag is true and a Supabase client is configured, execute the remote insert
first — a remote failure propagates out before the local write — and only
then insert the row locally. -/
def createSet (env : SyncEnv) (online : Bool) (db : LocalDB) (set : FlashcardSet) :
    LocalDB × Except AppError FlashcardSet :=
  match validateUuid set.user_id "User ID" with
  | .error e => (db, .error e)
  | .ok _ =>
    match validateNotEmpty set.title "Set title" with
    | .error e => (db, .error e)
    | .ok _ =>
      let remote : Except AppError Unit :=
        if online && env.cfg then
          if env.net (createSetRemoteCall set) then .ok ()
          else .error (.Supabase "Failed to create set")
        else .ok ()
      match remote with
      | .error e => (db, .error e)
      | .ok _ => (insertRow db "flashcard_sets" (flashcardSetRow online set), .ok set)

/-- The remote payload built in `add_flashcard` (fields already validated
and sanitized). -/
def flashcardPayload (card : Flashcard) : Row :=
  [("id", .str card.id), ("set_id", .str card.set_id), ("front", .str card.front),
   ("back", .str card.back), ("created_at", .str card.created_at)]

/-- The local row inserted by `add_flashcard`. -/
def flashcardRow (online : Bool) (card : Flashcard) : Row :=
  flashcardPayload card ++
    [("synced", .num (if online then 1 else 0)),
     ("dirty", .num (if online then 0 else 1))]

/-- The remote request issued by `add_flashcard` when online. -/
def addFlashcardRemoteCall (card : Flashcard) : RemoteCall :=
  .insertCall "flashcards" (serializeRow (flashcardPayload card))

/-- `FlashcardService::add_flashcard`: validate and sanitize front/back,
then, when online with a client configured, execute the remote insert first
— a remote failure propagates out before the local write — and only then
insert the row locally.  `newId` and `createdAt` stand for the Uuid/Utc
effects. -/
def addFlashcard (env : SyncEnv) (online : Bool) (db : LocalDB)
    (req : CreateFlashcardRequest) (newId createdAt : String) :
    LocalDB × Except AppError Flashcard :=
  match validateUuid req.set_id "Set ID" with
  | .error e => (db, .error e)
  | .ok _ =>
    match validateFlashcardContent req.front "Front" with
    | .error e => (db, .error e)
    | .ok front =>
      match validateFlashcardContent req.back "Back" with
      | .error e => (db, .error e)
      | .ok back =>
        let card : Flashcard :=
          { id := newId, set_id := req.set_id, front := front, back := back,
            created_at := createdAt }
        let remote : Except AppError Unit :=
          if online && env.cfg then
            if env.net (addFlashcardRemoteCall card) then .ok ()
            else .error (.Supabase "Failed to add flashcard")
          else .ok ()
        match remote with
        | .error e => (db, .error e)
        | .ok _ => (insertRow db "flashcards" (flashcardRow online card), .ok card)

/-- The flashcard actually stored by `add_flashcard` once validation
succeeds: front and back are the sanitized request fields. -/
def sanitizedFlashcard (req : CreateFlashcardRequest) (newId createdAt : String) :
    Flashcard :=
  { id := newId, set_id := req.set_id, front := sanitizeText req.front,
    back := sanitizeText req.back, created_at := createdAt }

/-! ### The synced/dirty invariant (spec section 3) -/

/-- A row is never both `synced = 1` and `dirty = 1`. -/
def rowOk (r : Row) : Prop :=
  ¬(getCol r "synced" = some (.num 1) ∧ getCol r "dirty" = some (.num 1))

/-- Every row of every domain table satisfies `rowOk`. -/
def dbRowsOk (db : LocalDB) : Prop :=
  ∀ t rows, (t, rows) ∈ db.tables → ∀ r ∈ rows, rowOk r

/-! ### Concrete instances used by the claim theorems and witnesses -/

/-- Empty database (fresh schema). -/
def dbEmpty : LocalDB := { tables := [], syncQueue := [] }

/-- Environment with a configured client whose every remote request fails. -/
def envAllFail : SyncEnv := { cfg := true, net := fun _ => false }

/-- Environment with a configured client whose every remote request
succeeds. -/
def envAllOk : SyncEnv := { cfg := true, net := fun _ => true }

/-- A valid flashcard set (user id matches the UUID regex). -/
def sampleSet : FlashcardSet :=
  { id := "11111111-2222-3333-4444-555555555555"
    user_id := "550e8400-e29b-41d4-a716-446655440000"
    title := "Torts"
    description := none
    created_at := "2026-01-01T00:00:00Z"
    updated_at := "2026-01-01T00:00:00Z" }

/-- A valid flashcard creation request. -/
def sampleReq : CreateFlashcardRequest :=
  { set_id := "11111111-2222-3333-4444-555555555555", front := "Q", back := "A" }

/-- Three queue entries for the partial-batch-failure scenario. -/
def op1 : QueueEntry :=
  { id := 1, operation_type := "insert", table_name := "flashcards",
    record_id := "r1", data := "d1", attempts := 0, created_at := 1 }

/-- Second entry of the scenario (the one whose remote call fails). -/
def op2 : QueueEntry :=
  { id := 2, operation_type := "insert", table_name := "flashcards",
    record_id := "r2", data := "d2", attempts := 0, created_at := 2 }

/-- Third entry of the scenario. -/
def op3 : QueueEntry :=
  { id := 3, operation_type := "insert", table_name := "flashcards",
    record_id := "r3", data := "d3", attempts := 0, created_at := 3 }

/-- Remote oracle failing exactly the request of `op2`. -/
def drainEnv : SyncEnv :=
  { cfg := true
    net := fun c => if c = RemoteCall.insertCall "flashcards" "d2" then false else true }

/-- Initial state of the partial-batch-failure scenario. -/
def drainState : SyncState :=
  { db := { tables := [], syncQueue := [op1, op2, op3] }
    online := true, isSyncing := false, lastSync := none }

/-- A dirty row of the `cases` table. -/
def dirtyCaseRow : Row :=
  [("id", .str "c1"), ("user_id", .str "u"), ("title", .str "T"),
   ("created_at", .str "t0"), ("updated_at", .str "t0"),
   ("synced", .num 0), ("dirty", .num 1)]

/-- Its projection (the remote payload): every column except synced/dirty. -/
def projectedCaseRow : Row :=
  [("id", .str "c1"), ("user_id", .str "u"), ("title", .str "T"),
   ("created_at", .str "t0"), ("updated_at", .str "t0")]

/-- A dirty row of the `flashcards` table. -/
def dirtyFlashcardRow : Row :=
  [("id", .str "f1"), ("set_id", .str "s"), ("front", .str "q"),
   ("back", .str "a"), ("created_at", .str "t0"),
   ("synced", .num 0), ("dirty", .num 1)]

/-- Database with one dirty row in `cases` and one in `flashcards`. -/
def sweepDb : LocalDB :=
  { tables := [("cases", [dirtyCaseRow]), ("flashcards", [dirtyFlashcardRow])]
    syncQueue := [] }

/-- Remote oracle failing exactly the upserts into `cases`. -/
def sweepEnv : SyncEnv :=
  { cfg := true
    net := fun c => match c with
      | .insertCall "cases" _ => false
      | _ => true }

/-- Initial state of the dirty-sweep-failure scenario. -/
def sweepState : SyncState :=
  { db := sweepDb, online := true, isSyncing := false, lastSync := none }

/-- A queue entry at four attempts (still eligible). -/
def entry4 : QueueEntry :=
  { id := 10, operation_type := "insert", table_name := "flashcards",
    record_id := "ra", data := "da", attempts := 4, created_at := 1 }

/-- A queue entry at the attempt cap (excluded). -/
def entry5 : QueueEntry :=
  { id := 11, operation_type := "insert", table_name := "flashcards",
    record_id := "rb", data := "db", attempts := 5, created_at := 2 }

/-- Database holding both boundary entries. -/
def capDb : LocalDB := { tables := [], syncQueue := [entry4, entry5] }

/-- State over `capDb`. -/
def capState : SyncState :=
  { db := capDb, online := true, isSyncing := false, lastSync := none }

/-- An offline, idle state. -/
def offlineState : SyncState :=
  { db := capDb, online := false, isSyncing := false, lastSync := some 5 }

/-- A state with a sync cycle already running. -/
def busyState : SyncState :=
  { db := capDb, online := true, isSyncing := true, lastSync := some 5 }

/-- A queue entry with an operation type outside insert/update/delete. -/
def badOp : QueueEntry :=
  { id := 20, operation_type := "upsert", table_name := "flashcards",
    record_id := "rc", data := "dc", attempts := 5, created_at := 3 }

/-- Database holding the malformed entry. -/
def badOpDb : LocalDB := { tables := [], syncQueue := [badOp] }

/-! ## Helper lemmas -/

theorem sortByCreatedAt_cons (x : QueueEntry) (xs : List QueueEntry) :
    sortByCreatedAt (x :: xs) = insertByCreatedAt x (sortByCreatedAt xs) := rfl

theorem mem_insertByCreatedAt {a e : QueueEntry} :
    ∀ {l : List QueueEntry}, a ∈ insertByCreatedAt e l ↔ a = e ∨ a ∈ l := by
  intro l
  induction l with
  | nil => simp [insertByCreatedAt]
  | cons x xs ih =>
    simp only [insertByCreatedAt]
    split
    · simp only [List.mem_cons, ih]
      tauto
    · simp only [List.mem_cons]

theorem mem_sortByCreatedAt {a : QueueEntry} :
    ∀ {l : List QueueEntry}, a ∈ sortByCreatedAt l ↔ a ∈ l := by
  intro l
  induction l with
  | nil => simp [sortByCreatedAt]
  | cons x xs ih =>
    rw [sortByCreatedAt_cons, mem_insertByCreatedAt, ih]
    simp

theorem length_insertByCreatedAt (e : QueueEntry) (l : List QueueEntry) :
    (insertByCreatedAt e l).length = l.length + 1 := by
  induction l with
  | nil => rfl
  | cons x xs ih =>
    simp only [insertByCreatedAt]
    split <;> simp [ih]

theorem length_sortByCreatedAt (l : List QueueEntry) :
    (sortByCreatedAt l).length = l.length := by
  induction l with
  | nil => rfl
  | cons x xs ih => rw [sortByCreatedAt_cons, length_insertByCreatedAt, ih]; rfl

theorem attempts_lt_of_mem_getQueuedOperations {db : LocalDB} {e : QueueEntry}
    (h : e ∈ getQueuedOperations db) : e.attempts < 5 := by
  unfold getQueuedOperations at h
  have h1 := List.take_subset 50 _ h
  rw [mem_sortByCreatedAt] at h1
  have h2 := List.of_mem_filter h1
  exact of_decide_eq_true h2

theorem mem_getQueuedOperations_of_small {db : LocalDB} {e : QueueEntry}
    (hmem : e ∈ db.syncQueue) (hlt : e.attempts < 5)
    (hlen : (db.syncQueue.filter (fun x => x.attempts < 5)).length ≤ 50) :
    e ∈ getQueuedOperations db := by
  unfold getQueuedOperations
  have hfil : e ∈ db.syncQueue.filter (fun x => x.attempts < 5) :=
    List.mem_filter.mpr ⟨hmem, by simp [hlt]⟩
  have hlen2 : (sortByCreatedAt (db.syncQueue.filter (fun x => x.attempts < 5))).length ≤ 50 := by
    rw [length_sortByCreatedAt]; exact hlen
  rw [List.take_of_length_le hlen2, mem_sortByCreatedAt]
  exact hfil

/-! ## Claim C4 -/

/-- Claim C4 (code bug): `check_online` never executes its probe.
`SupabaseClient::select` merely builds a query and returns `Ok`, so for
every environment `check_online` returns exactly the configured flag,
independently of the network oracle; in particular it returns true for a
configured client even when every remote request fails. -/
theorem claim_C4 :
    (∀ env : SyncEnv, checkOnline env = env.cfg) ∧ checkOnline envAllFail = true := by
  constructor
  · intro env
    by_cases h : env.cfg <;> simp [checkOnline, supabaseSelect, h]
  · rfl

/-! ## Claim C5 -/

/-- Claim C5: when the cached online flag is false (and no cycle is already
running), `sync_now` returns the Offline error and the state — queue, every
row, `last_sync` — is exactly unchanged. -/
theorem claim_C5 (env : SyncEnv) (now : Nat) (s : SyncState)
    (hrun : s.isSyncing = false) (hoff : s.online = false) :
    syncNow env now s = (s, .error AppError.Offline) := by
  cases s with
  | mk db online issync last =>
    simp only at hrun hoff
    subst hrun hoff
    simp [syncNow, performSync, Except.isOk, Except.toBool]

/-- Witness for C5 at a concrete offline state. -/
theorem claim_C5_witness :
    syncNow envAllOk 7 offlineState = (offlineState, .error AppError.Offline) :=
  claim_C5 envAllOk 7 offlineState rfl rfl

/-! ## Claim C6 -/

/-- Claim C6: when a cycle is already running (`is_syncing` set), `sync_now`
fails immediately with the "already syncing" error and the state is exactly
unchanged: no queue entry, no row flag and no `last_sync` change. -/
theorem claim_C6 (env : SyncEnv) (now : Nat) (s : SyncState)
    (hrun : s.isSyncing = true) :
    syncNow env now s = (s, .error (.Sync "Sync already in progress")) := by
  simp [syncNow, hrun]

/-- Witness for C6 at a concrete running state. -/
theorem claim_C6_witness :
    syncNow envAllOk 7 busyState = (busyState, .error (.Sync "Sync already in progress")) :=
  claim_C6 envAllOk 7 busyState rfl

/-! ## Claim C2 -/

/-- Claim C2: queue entries are processed independently.  The drain phase
catches every per-entry failure inside its loop, so it always completes with
Ok; and in the concrete three-entry scenario where the remote calls of op1
and op3 succeed and that of op2 fails, one sync cycle leaves the queue
holding exactly op2 with `attempts = 1`, returns Ok, and advances
`last_sync` to the current time. -/
theorem claim_C2 :
    (∀ (env : SyncEnv) (db : LocalDB), (processSyncQueue env db).2 = .ok ()) ∧
    (syncNow drainEnv 42 drainState).1.db.syncQueue = [{ op2 with attempts := 1 }] ∧
    (syncNow drainEnv 42 drainState).1.lastSync = some 42 ∧
    (syncNow drainEnv 42 drainState).2 = .ok () := by
  refine ⟨fun env db => rfl, by decide, by decide, by rfl⟩

/-! ## Claim C7 -/

/-- Claim C7: the attempt-cap boundary.  Every fetched drain entry has
`attempts < 5`; an entry with `attempts = 4` still appears in the fetched
batch (whenever the eligible entries fit the batch limit of 50); and an
entry at or above the cap does not contribute to the `pending_operations`
count of the status. -/
theorem claim_C7 :
    (∀ (db : LocalDB) (e : QueueEntry), e ∈ getQueuedOperations db → e.attempts < 5) ∧
    (∀ (db : LocalDB) (e : QueueEntry), e ∈ db.syncQueue → e.attempts = 4 →
      (db.syncQueue.filter (fun x => x.attempts < 5)).length ≤ 50 →
      e ∈ getQueuedOperations db) ∧
    (∀ (s : SyncState) (e : QueueEntry), 5 ≤ e.attempts →
      (getStatus { s with db := { s.db with syncQueue := s.db.syncQueue ++ [e] } }).pending_operations
        = (getStatus s).pending_operations) := by
  refine ⟨?_, ?_, ?_⟩
  · intro db e h
    exact attempts_lt_of_mem_getQueuedOperations h
  · intro db e hmem h4 hlen
    exact mem_getQueuedOperations_of_small hmem (by omega) hlen
  · intro s e hcap
    have hnot : ¬(e.attempts < 5) := by omega
    simp [getStatus, List.filter_append, hnot]

/-- Witness for C7: in the concrete two-entry database, the entry with four
attempts is fetched and is under the cap, and appending the capped entry to
a queue does not change the reported pending count. -/
theorem claim_C7_witness :
    entry4.attempts < 5 ∧
    entry4 ∈ getQueuedOperations capDb ∧
    (getStatus { capState with db := { capState.db with syncQueue := capState.db.syncQueue ++ [entry5] } }).pending_operations
      = (getStatus capState).pending_operations :=
  ⟨claim_C7.1 capDb entry4 (by decide),
   claim_C7.2.1 capDb entry4 (by decide) (by decide) (by decide),
   claim_C7.2.2 capState entry5 (by decide)⟩

/-! ## More helper lemmas: state components across a sync cycle -/

theorem performSync_lastSync (env : SyncEnv) (s : SyncState) :
    (performSync env s).1.lastSync = s.lastSync := by
  unfold performSync
  split
  · split
    · rfl
    · split
      rfl
  · rfl

theorem syncNow_lastSync_of_error (env : SyncEnv) (now : Nat) (s : SyncState)
    (hrun : s.isSyncing = false)
    (hfail : (syncNow env now s).2.isOk = false) :
    (syncNow env now s).1.lastSync = s.lastSync := by
  unfold syncNow at *
  rw [hrun] at *
  simp only [Bool.false_eq_true, if_false] at *
  rw [hfail]
  simpa using performSync_lastSync env { s with isSyncing := true }

/-! ## Claim C3 -/

/-- Claim C3 counterexample: with one dirty row in `cases` whose upsert
fails and one dirty row in `flashcards` whose upsert would succeed, a sync
cycle returns a Sync error, leaves the whole database unchanged (the second
dirty row is never swept), and does not advance `last_sync` — contradicting
the claim that a failed upsert lets the cycle continue and `last_sync`
advance. -/
theorem claim_C3_counterexample :
    (syncNow sweepEnv 42 sweepState).2 = .error (.Sync "Upsert failed") ∧
    (syncNow sweepEnv 42 sweepState).1.db = sweepDb ∧
    (syncNow sweepEnv 42 sweepState).1.lastSync = none := by
  refine ⟨by rfl, by decide, by decide⟩

/-- Claim C3 as amended: per table at most 20 dirty rows are fetched; a
successful upsert marks the row synced and continues with the rest; a
failed upsert aborts the sweep right there with a Sync error, leaving the
database (hence the failing row's dirty flag) as it was; and a cycle whose
result is an error does not advance `last_sync`. -/
theorem claim_C3_amended :
    (∀ (db : LocalDB) (t : String), (dirtyRecords db t).length ≤ 20) ∧
    (∀ (env : SyncEnv) (t : String) (db : LocalDB) (record : Row) (rest : List Row),
      env.net (.insertCall t (serializeRow record)) = true →
      upsertRecords env t db (record :: rest) =
        upsertRecords env t (markSynced db t (recordIdOf record)) rest) ∧
    (∀ (env : SyncEnv) (t : String) (db : LocalDB) (record : Row) (rest : List Row),
      env.net (.insertCall t (serializeRow record)) = false →
      upsertRecords env t db (record :: rest) = (db, .error (.Sync "Upsert failed"))) ∧
    (∀ (env : SyncEnv) (now : Nat) (s : SyncState),
      s.isSyncing = false → (syncNow env now s).2.isOk = false →
      (syncNow env now s).1.lastSync = s.lastSync) := by
  refine ⟨?_, ?_, ?_, ?_⟩
  · intro db t
    unfold dirtyRecords
    rw [List.length_map]
    have := List.length_take 20 ((getTable db t).filter isDirtyRow)
    omega
  · intro env t db record rest h
    simp [upsertRecords, h]
  · intro env t db record rest h
    simp [upsertRecords, h]
  · intro env now s hrun hfail
    exact syncNow_lastSync_of_error env now s hrun hfail

/-- Witness for the amended C3, instantiating each part on the concrete
dirty-sweep scenario. -/
theorem claim_C3_amended_witness :
    (dirtyRecords sweepDb "cases").length ≤ 20 ∧
    upsertRecords envAllOk "cases" sweepDb [projectedCaseRow] =
      upsertRecords envAllOk "cases" (markSynced sweepDb "cases" (recordIdOf projectedCaseRow)) [] ∧
    upsertRecords sweepEnv "cases" sweepDb [projectedCaseRow] =
      (sweepDb, .error (.Sync "Upsert failed")) ∧
    (syncNow sweepEnv 42 sweepState).1.lastSync = sweepState.lastSync :=
  ⟨claim_C3_amended.1 sweepDb "cases",
   claim_C3_amended.2.1 envAllOk "cases" sweepDb projectedCaseRow [] (by decide),
   claim_C3_amended.2.2.1 sweepEnv "cases" sweepDb projectedCaseRow [] (by decide),
   claim_C3_amended.2.2.2 sweepEnv 42 sweepState (by decide) (by decide)⟩

/-! ## Claim C10 -/

/-- Claim C10: a queue entry whose operation type is none of
insert/update/delete fails with a Sync error and no remote request is
issued; the drain loop then only increments its attempt counter — the entry
is never removed, every other entry is untouched — until the counter
reaches the cap, after which the entry is excluded from every batch. -/
theorem claim_C10 (env : SyncEnv) (db : LocalDB) (op : QueueEntry)
    (hcfg : env.cfg = true)
    (h1 : op.operation_type ≠ "insert")
    (h2 : op.operation_type ≠ "update")
    (h3 : op.operation_type ≠ "delete") :
    executeSyncOperation env op =
      (.error (.Sync ("Unknown operation type: " ++ op.operation_type)), []) ∧
    processQueueEntry env db op = incrementSyncAttempts db op.id ∧
    (incrementSyncAttempts db op.id).syncQueue.length = db.syncQueue.length ∧
    (∀ e ∈ db.syncQueue, e.id = op.id →
      { e with attempts := e.attempts + 1 } ∈ (incrementSyncAttempts db op.id).syncQueue) ∧
    (∀ e ∈ db.syncQueue, e.id ≠ op.id → e ∈ (incrementSyncAttempts db op.id).syncQueue) ∧
    (5 ≤ op.attempts → op ∉ getQueuedOperations db) := by
  have hexec : executeSyncOperation env op =
      (.error (.Sync ("Unknown operation type: " ++ op.operation_type)), []) := by
    unfold executeSyncOperation
    rw [hcfg]
    simp only [if_true]
  refine ⟨hexec, ?_, ?_, ?_, ?_, ?_⟩
  · simp [processQueueEntry, hexec]
  · simp [incrementSyncAttempts]
  · intro e he heid
    simp only [incrementSyncAttempts]
    exact List.mem_map.mpr ⟨e, he, by simp [heid]⟩
  · intro e he heid
    simp only [incrementSyncAttempts]
    refine List.mem_map.mpr ⟨e, he, ?_⟩
    simp [heid]
  · intro hcap hin
    have := attempts_lt_of_mem_getQueuedOperations hin
    omega

/-- Witness for C10 at the concrete malformed entry (already at the cap, so
the exclusion conjunct is also exercised). -/
theorem claim_C10_witness :
    executeSyncOperation envAllOk badOp =
      (.error (.Sync ("Unknown operation type: " ++ badOp.operation_type)), []) ∧
    processQueueEntry envAllOk badOpDb badOp = incrementSyncAttempts badOpDb badOp.id ∧
    (incrementSyncAttempts badOpDb badOp.id).syncQueue.length = badOpDb.syncQueue.length ∧
    (∀ e ∈ badOpDb.syncQueue, e.id = badOp.id →
      { e with attempts := e.attempts + 1 } ∈ (incrementSyncAttempts badOpDb badOp.id).syncQueue) ∧
    (∀ e ∈ badOpDb.syncQueue, e.id ≠ badOp.id →
      e ∈ (incrementSyncAttempts badOpDb badOp.id).syncQueue) ∧
    (5 ≤ badOp.attempts → badOp ∉ getQueuedOperations badOpDb) :=
  claim_C10 envAllOk badOpDb badOp (by decide) (by decide) (by decide) (by decide)

/-! ## Claim C9 -/

/-- Claim C9: every record the dirty sweep sends to the remote store is the
projection of a dirty local row in which the internal `synced` and `dirty`
columns have been stripped and every other column carried over. -/
theorem claim_C9 (db : LocalDB) (t : String) (r : Row)
    (hmem : r ∈ dirtyRecords db t) :
    (∀ kv ∈ r, kv.1 ≠ "synced" ∧ kv.1 ≠ "dirty") ∧
    ∃ orig, orig ∈ getTable db t ∧ isDirtyRow orig = true ∧ r = projectRow orig ∧
      ∀ kv ∈ orig, kv.1 ≠ "synced" → kv.1 ≠ "dirty" → kv ∈ r := by
  unfold dirtyRecords at hmem
  rcases List.mem_map.mp hmem with ⟨orig, horig, hproj⟩
  have htake := List.take_subset 20 _ horig
  have hfil := List.mem_filter.mp htake
  refine ⟨?_, orig, hfil.1, hfil.2, hproj.symm, ?_⟩
  · intro kv hkv
    rw [← hproj] at hkv
    have := List.of_mem_filter hkv
    simp only [Bool.not_eq_true', Bool.or_eq_false_iff, beq_eq_false_iff_ne] at this
    exact this
  · intro kv hkv hne1 hne2
    rw [← hproj]
    refine List.mem_filter.mpr ⟨hkv, ?_⟩
    simp [hne1, hne2]

/-- Witness for C9 at the concrete dirty `cases` row. -/
theorem claim_C9_witness :
    (∀ kv ∈ projectedCaseRow, kv.1 ≠ "synced" ∧ kv.1 ≠ "dirty") ∧
    ∃ orig, orig ∈ getTable sweepDb "cases" ∧ isDirtyRow orig = true ∧
      projectedCaseRow = projectRow orig ∧
      ∀ kv ∈ orig, kv.1 ≠ "synced" → kv.1 ≠ "dirty" → kv ∈ projectedCaseRow :=
  claim_C9 sweepDb "cases" projectedCaseRow (by decide)

/-! ## Helper lemmas: validation outcomes -/

theorem validateUuid_ok {v : String} (fn : String) (h : uuidShape v = true) :
    validateUuid v fn = .ok () := by
  simp [validateUuid, h]

theorem validateNotEmpty_ok {v : String} (fn : String)
    (h : (trimChars v.toList).isEmpty = false) :
    validateNotEmpty v fn = .ok () := by
  have h2 : ¬ trimChars v.data = [] := by simpa [String.toList] using h
  simp [validateNotEmpty, h2]

theorem validateFlashcardContent_ok {v : String} (fn : String)
    (h1 : (trimChars v.toList).isEmpty = false)
    (h2 : 1 ≤ strByteLen v) (h3 : strByteLen v ≤ 5000) :
    validateFlashcardContent v fn = .ok (sanitizeText v) := by
  have hc : ¬(strByteLen v = 0 ∨ 5000 < strByteLen v) := by omega
  have h4 : ¬ trimChars v.data = [] := by simpa [String.toList] using h1
  simp [validateFlashcardContent, validateNotEmpty, h4, validateLength, hc]

/-! ## Claim C1 -/

/-- Claim C1 counterexample: online with a configured client whose remote
insert fails, `create_set` on a valid request returns the Supabase error
and performs no local write at all — the database is exactly unchanged and
the `flashcard_sets` table stays empty, refuting the claim that the local
write is unconditional and never prevented by a remote failure. -/
theorem claim_C1_counterexample :
    (createSet envAllFail true dbEmpty sampleSet).2 =
      .error (.Supabase "Failed to create set") ∧
    (createSet envAllFail true dbEmpty sampleSet).1 = dbEmpty ∧
    getTable (createSet envAllFail true dbEmpty sampleSet).1 "flashcard_sets" = [] := by
  refine ⟨by rfl, by decide, by decide⟩

/-- Claim C1 as amended: on a valid request, when the cached online flag is
true and a remote client is configured, the remote write is attempted first
and its failure is surfaced to the caller and prevents the local write (the
database is returned unchanged); the local write happens exactly when the
remote write succeeds, the service is offline, or no remote client is
configured. -/
theorem claim_C1_amended (env : SyncEnv) (online : Bool) (db : LocalDB)
    (set : FlashcardSet) (req : CreateFlashcardRequest) (newId createdAt : String)
    (hu : uuidShape set.user_id = true)
    (ht : (trimChars set.title.toList).isEmpty = false)
    (hs : uuidShape req.set_id = true)
    (hf1 : (trimChars req.front.toList).isEmpty = false)
    (hf2 : 1 ≤ strByteLen req.front) (hf3 : strByteLen req.front ≤ 5000)
    (hb1 : (trimChars req.back.toList).isEmpty = false)
    (hb2 : 1 ≤ strByteLen req.back) (hb3 : strByteLen req.back ≤ 5000) :
    ((online = true → env.cfg = true → env.net (createSetRemoteCall set) = false →
        createSet env online db set = (db, .error (.Supabase "Failed to create set"))) ∧
     (env.net (createSetRemoteCall set) = true ∨ online = false ∨ env.cfg = false →
        createSet env online db set =
          (insertRow db "flashcard_sets" (flashcardSetRow online set), .ok set))) ∧
    ((online = true → env.cfg = true →
        env.net (addFlashcardRemoteCall (sanitizedFlashcard req newId createdAt)) = false →
        addFlashcard env online db req newId createdAt =
          (db, .error (.Supabase "Failed to add flashcard"))) ∧
     (env.net (addFlashcardRemoteCall (sanitizedFlashcard req newId createdAt)) = true ∨
        online = false ∨ env.cfg = false →
        addFlashcard env online db req newId createdAt =
          (insertRow db "flashcards" (flashcardRow online (sanitizedFlashcard req newId createdAt)),
            .ok (sanitizedFlashcard req newId createdAt)))) := by
  have hv1 := validateUuid_ok "User ID" hu
  have hv2 := validateNotEmpty_ok "Set title" ht
  have hv3 := validateUuid_ok "Set ID" hs
  have hv4 := validateFlashcardContent_ok "Front" hf1 hf2 hf3
  have hv5 := validateFlashcardContent_ok "Back" hb1 hb2 hb3
  refine ⟨⟨?_, ?_⟩, ?_, ?_⟩
  · intro ho hc hn
    simp [createSet, hv1, hv2, ho, hc, hn]
  · intro hd
    rcases hd with hn | ho | hc
    · simp [createSet, hv1, hv2, hn]
    · simp [createSet, hv1, hv2, ho]
    · simp [createSet, hv1, hv2, hc]
  · intro ho hc hn
    simp [addFlashcard, hv3, hv4, hv5, ho, hc, sanitizedFlashcard] at hn ⊢
    simp [hn]
  · intro hd
    rcases hd with hn | ho | hc
    · simp [addFlashcard, hv3, hv4, hv5, sanitizedFlashcard] at hn ⊢
      simp [hn]
    · simp [addFlashcard, hv3, hv4, hv5, ho, sanitizedFlashcard]
    · simp [addFlashcard, hv3, hv4, hv5, hc, sanitizedFlashcard]

/-- Witness for the amended C1 at a concrete valid set and request. -/
theorem claim_C1_amended_witness :
    ((true = true → envAllFail.cfg = true →
        envAllFail.net (createSetRemoteCall sampleSet) = false →
        createSet envAllFail true dbEmpty sampleSet =
          (dbEmpty, .error (.Supabase "Failed to create set"))) ∧
     (envAllFail.net (createSetRemoteCall sampleSet) = true ∨ true = false ∨
        envAllFail.cfg = false →
        createSet envAllFail true dbEmpty sampleSet =
          (insertRow dbEmpty "flashcard_sets" (flashcardSetRow true sampleSet), .ok sampleSet))) ∧
    ((true = true → envAllFail.cfg = true →
        envAllFail.net (addFlashcardRemoteCall (sanitizedFlashcard sampleReq "f1" "t0")) = false →
        addFlashcard envAllFail true dbEmpty sampleReq "f1" "t0" =
          (dbEmpty, .error (.Supabase "Failed to add flashcard"))) ∧
     (envAllFail.net (addFlashcardRemoteCall (sanitizedFlashcard sampleReq "f1" "t0")) = true ∨
        true = false ∨ envAllFail.cfg = false →
        addFlashcard envAllFail true dbEmpty sampleReq "f1" "t0" =
          (insertRow dbEmpty "flashcards" (flashcardRow true (sanitizedFlashcard sampleReq "f1" "t0")),
            .ok (sanitizedFlashcard sampleReq "f1" "t0")))) :=
  claim_C1_amended envAllFail true dbEmpty sampleSet sampleReq "f1" "t0"
    (by decide) (by decide) (by decide) (by decide) (by decide) (by decide)
    (by decide) (by decide) (by decide)

/-! ## Helper lemmas: the synced/dirty invariant -/

theorem getCol_setCol_eq {k : String} {v w : JsonVal} :
    ∀ {r : Row}, getCol (setCol r k v) k = some w → w = v := by
  intro r
  induction r with
  | nil => intro h; simp [getCol, setCol] at h
  | cons kv rest ih =>
    intro h
    simp only [setCol, List.map_cons] at h
    by_cases hk : kv.1 == k
    · rw [if_pos hk] at h
      unfold getCol at h
      rw [List.find?_cons_of_pos _ (by simp)] at h
      simp at h
      exact h.symm
    · rw [if_neg hk] at h
      unfold getCol at h
      rw [List.find?_cons_of_neg _ (by simpa using hk)] at h
      exact ih h

theorem rowOk_markRowSynced (rid : String) {r : Row} (h : rowOk r) :
    rowOk (markRowSynced rid r) := by
  unfold markRowSynced
  split
  · intro hcontra
    have := getCol_setCol_eq hcontra.2
    simp at this
  · exact h

theorem dbRowsOk_markSynced {db : LocalDB} (t rid : String) (h : dbRowsOk db) :
    dbRowsOk (markSynced db t rid) := by
  intro t' rows' hmem r hr
  simp only [markSynced] at hmem
  rcases List.mem_map.mp hmem with ⟨⟨pt, prows⟩, hp, hfp⟩
  dsimp only at hfp
  by_cases hpt : pt == t
  · rw [if_pos hpt, Prod.mk.injEq] at hfp
    obtain ⟨h1, h2⟩ := hfp
    subst h1
    subst h2
    rcases List.mem_map.mp hr with ⟨r0, hr0, hr0eq⟩
    rw [← hr0eq]
    exact rowOk_markRowSynced rid (h pt prows hp r0 hr0)
  · rw [if_neg hpt] at hfp
    injection hfp with h1 h2
    subst h1
    subst h2
    exact h pt prows hp r hr

theorem dbRowsOk_upsertRecords (env : SyncEnv) (t : String) :
    ∀ (recs : List Row) (db : LocalDB), dbRowsOk db →
      dbRowsOk (upsertRecords env t db recs).1 := by
  intro recs
  induction recs with
  | nil => intro db h; exact h
  | cons record rest ih =>
    intro db h
    simp only [upsertRecords]
    split
    · exact ih _ (dbRowsOk_markSynced t (recordIdOf record) h)
    · exact h

theorem dbRowsOk_syncDirtyTable (env : SyncEnv) (db : LocalDB) (t : String)
    (h : dbRowsOk db) : dbRowsOk (syncDirtyTable env db t).1 := by
  unfold syncDirtyTable
  split
  · exact dbRowsOk_upsertRecords env t _ db h
  · exact h

theorem dbRowsOk_syncTablesList (env : SyncEnv) :
    ∀ (ts : List String) (db : LocalDB), dbRowsOk db →
      dbRowsOk (syncTablesList env db ts).1 := by
  intro ts
  induction ts with
  | nil => intro db h; exact h
  | cons t rest ih =>
    intro db h
    rcases hsd : syncDirtyTable env db t with ⟨db1, r1⟩
    have h1 : dbRowsOk db1 := by
      have := dbRowsOk_syncDirtyTable env db t h
      rw [hsd] at this
      exact this
    simp only [syncTablesList]
    rw [hsd]
    cases r1 with
    | ok u => exact ih db1 h1
    | error e => exact h1

theorem tables_processQueueEntry (env : SyncEnv) (db : LocalDB) (op : QueueEntry) :
    (processQueueEntry env db op).tables = db.tables := by
  unfold processQueueEntry
  split <;> rfl

theorem tables_foldl_processQueueEntry (env : SyncEnv) :
    ∀ (ops : List QueueEntry) (db : LocalDB),
      (ops.foldl (processQueueEntry env) db).tables = db.tables := by
  intro ops
  induction ops with
  | nil => intro db; rfl
  | cons op rest ih =>
    intro db
    simp only [List.foldl_cons]
    rw [ih, tables_processQueueEntry]

theorem dbRowsOk_of_tables_eq {db1 db2 : LocalDB} (h : db1.tables = db2.tables)
    (h2 : dbRowsOk db2) : dbRowsOk db1 := by
  intro t rows hmem r hr
  exact h2 t rows (h ▸ hmem) r hr

theorem dbRowsOk_performSync (env : SyncEnv) (s : SyncState) (h : dbRowsOk s.db) :
    dbRowsOk (performSync env s).1.db := by
  unfold performSync
  split
  · simp only [processSyncQueue]
    have hfold : dbRowsOk ((getQueuedOperations s.db).foldl (processQueueEntry env) s.db) :=
      dbRowsOk_of_tables_eq (tables_foldl_processQueueEntry env _ s.db) h
    rcases hs2 : syncDirtyRecords env
        ((getQueuedOperations s.db).foldl (processQueueEntry env) s.db) with ⟨db2, r2⟩
    have h2 : dbRowsOk db2 := by
      have := dbRowsOk_syncTablesList env syncTableNames
        ((getQueuedOperations s.db).foldl (processQueueEntry env) s.db) hfold
      unfold syncDirtyRecords at hs2
      rw [hs2] at this
      exact this
    exact h2
  · exact h

theorem dbRowsOk_syncNow (env : SyncEnv) (now : Nat) (s : SyncState)
    (h : dbRowsOk s.db) : dbRowsOk (syncNow env now s).1.db := by
  unfold syncNow
  split
  · exact h
  · simpa using dbRowsOk_performSync env { s with isSyncing := true } h

theorem rowOk_flashcardSetRow (online : Bool) (set : FlashcardSet) :
    rowOk (flashcardSetRow online set) := by
  cases online
  · intro hcontra
    have h1 : (some (JsonVal.num 0) : Option JsonVal) = some (.num 1) := hcontra.1
    simp at h1
  · intro hcontra
    have h1 : (some (JsonVal.num 0) : Option JsonVal) = some (.num 1) := hcontra.2
    simp at h1

theorem rowOk_flashcardRow (online : Bool) (card : Flashcard) :
    rowOk (flashcardRow online card) := by
  cases online
  · intro hcontra
    have h1 : (some (JsonVal.num 0) : Option JsonVal) = some (.num 1) := hcontra.1
    simp at h1
  · intro hcontra
    have h1 : (some (JsonVal.num 0) : Option JsonVal) = some (.num 1) := hcontra.2
    simp at h1

theorem dbRowsOk_insertRow {db : LocalDB} (t : String) {r : Row}
    (h : dbRowsOk db) (hr : rowOk r) : dbRowsOk (insertRow db t r) := by
  intro t' rows' hmem r' hr'
  unfold insertRow at hmem
  split at hmem
  · simp only at hmem
    rcases List.mem_map.mp hmem with ⟨⟨pt, prows⟩, hp, hfp⟩
    dsimp only at hfp
    by_cases hpt : pt == t
    · rw [if_pos hpt, Prod.mk.injEq] at hfp
      obtain ⟨h1, h2⟩ := hfp
      subst h1
      subst h2
      rcases List.mem_append.mp hr' with hx | hx
      · exact h pt prows hp r' hx
      · rw [List.mem_singleton] at hx
        subst hx
        exact hr
    · rw [if_neg hpt] at hfp
      injection hfp with h1 h2
      subst h1
      subst h2
      exact h pt prows hp r' hr'
  · simp only at hmem
    rcases List.mem_append.mp hmem with hx | hx
    · exact h t' rows' hx r' hr'
    · rw [List.mem_singleton, Prod.mk.injEq] at hx
      obtain ⟨h1, h2⟩ := hx
      subst h1
      subst h2
      rw [List.mem_singleton] at hr'
      subst hr'
      exact hr

theorem dbRowsOk_createSet (env : SyncEnv) (online : Bool) (db : LocalDB)
    (set : FlashcardSet) (h : dbRowsOk db) :
    dbRowsOk (createSet env online db set).1 := by
  unfold createSet
  cases validateUuid set.user_id "User ID" with
  | error e => exact h
  | ok u =>
    cases validateNotEmpty set.title "Set title" with
    | error e => exact h
    | ok v =>
      cases honline : online && env.cfg with
      | false =>
        have hgoal := dbRowsOk_insertRow "flashcard_sets" h (rowOk_flashcardSetRow online set)
        simpa [honline] using hgoal
      | true =>
        cases hnet : env.net (createSetRemoteCall set) with
        | false => simpa [honline, hnet] using h
        | true =>
          have hgoal := dbRowsOk_insertRow "flashcard_sets" h (rowOk_flashcardSetRow online set)
          simpa [honline, hnet] using hgoal

theorem dbRowsOk_addFlashcard (env : SyncEnv) (online : Bool) (db : LocalDB)
    (req : CreateFlashcardRequest) (newId createdAt : String) (h : dbRowsOk db) :
    dbRowsOk (addFlashcard env online db req newId createdAt).1 := by
  unfold addFlashcard
  cases validateUuid req.set_id "Set ID" with
  | error e => exact h
  | ok u =>
    cases validateFlashcardContent req.front "Front" with
    | error e => exact h
    | ok front =>
      cases validateFlashcardContent req.back "Back" with
      | error e => exact h
      | ok back =>
        cases honline : online && env.cfg with
        | false =>
          have hgoal := dbRowsOk_insertRow "flashcards" h
            (rowOk_flashcardRow online
              { id := newId, set_id := req.set_id, front := front, back := back,
                created_at := createdAt })
          simpa [honline] using hgoal
        | true =>
          cases hnet : env.net (addFlashcardRemoteCall
              { id := newId, set_id := req.set_id, front := front, back := back,
                created_at := createdAt }) with
          | false => simpa [honline, hnet] using h
          | true =>
            have hgoal := dbRowsOk_insertRow "flashcards" h
              (rowOk_flashcardRow online
                { id := newId, set_id := req.set_id, front := front, back := back,
                  created_at := createdAt })
            simpa [honline, hnet] using hgoal

/-! ## Claim C8 -/

/-- Claim C8: the synced/dirty invariant.  If every row of every domain
table satisfies "not both synced = 1 and dirty = 1", then the same holds
after a domain insert (`create_set`, `add_flashcard`, whatever the
connectivity and remote outcome) and after a whole sync cycle (whose only
row mutation is the mark-synced update to synced = 1, dirty = 0). -/
theorem claim_C8 (env : SyncEnv) (online : Bool) (db : LocalDB) (set : FlashcardSet)
    (req : CreateFlashcardRequest) (newId createdAt : String) (now : Nat) (s : SyncState)
    (h1 : dbRowsOk db) (h2 : dbRowsOk s.db) :
    dbRowsOk (createSet env online db set).1 ∧
    dbRowsOk (addFlashcard env online db req newId createdAt).1 ∧
    dbRowsOk (syncNow env now s).1.db :=
  ⟨dbRowsOk_createSet env online db set h1,
   dbRowsOk_addFlashcard env online db req newId createdAt h1,
   dbRowsOk_syncNow env now s h2⟩

/-- Witness for C8: a concrete online insert pair and a concrete sync cycle
over the dirty-sweep database. -/
theorem claim_C8_witness :
    dbRowsOk (createSet sweepEnv true dbEmpty sampleSet).1 ∧
    dbRowsOk (addFlashcard sweepEnv true dbEmpty sampleReq "f1" "t0").1 ∧
    dbRowsOk (syncNow sweepEnv 42 sweepState).1.db :=
  claim_C8 sweepEnv true dbEmpty sampleSet sampleReq "f1" "t0" 42 sweepState
    (by intro t rows hmem r hr; simp [dbEmpty] at hmem)
    (by
      intro t rows hmem r hr
      simp only [sweepState, sweepDb, List.mem_cons, List.mem_singleton] at hmem
      rcases hmem with hx | hx | hx
      · rw [Prod.mk.injEq] at hx
        obtain ⟨h1, h2⟩ := hx
        subst h2
        rw [List.mem_singleton] at hr
        subst hr
        exact (by decide : ¬(getCol dirtyCaseRow "synced" = some (JsonVal.num 1) ∧
          getCol dirtyCaseRow "dirty" = some (JsonVal.num 1)))
      · rw [Prod.mk.injEq] at hx
        obtain ⟨h1, h2⟩ := hx
        subst h2
        rw [List.mem_singleton] at hr
        subst hr
        exact (by decide : ¬(getCol dirtyFlashcardRow "synced" = some (JsonVal.num 1) ∧
          getCol dirtyFlashcardRow "dirty" = some (JsonVal.num 1)))
      · exact absurd hx (by simp))

end FirmAI
